import Mathlib

/-!
Verification development for the `memory` session module
(`src/memory/__init__.py`).  The module wraps a Redis-backed session
store: the gateway functions `create` and `load` build `_Memory`
handles, and the handle methods (`save`, `extend`, `close`, the mapping
dunders and the attribute accessors) operate on an identifier (`__key`)
and an ordered string-keyed store (`__store`).

Modelling choices, all taken from the source:
* Session values are JSON-representable values (`JVal`); the ordered
  mapping `jobject` is modelled as an association list (`Store`)
  preserving insertion order.
* Backend traffic is modelled as the list of Redis commands a call
  issues (`RCmd`); the serialization codec (`jsonb`) and the raw
  backend contents are abstract parameters.
* Python exceptions become `Except PyErr`; Python `== 0` on a stored
  value becomes `pyEqZero` (numbers compare numerically, `False == 0`
  is true in Python, every other JSON value compares unequal to 0).
* Method-level definitions (`Memory.save`, `Memory.extend`, ...) give
  the semantics of each method body over an established handle state
  `⟨key, store⟩`.  The constructor itself does not establish that
  state: its attribute dispatch is modelled separately and faithfully
  by the fuelled functions `getattrRaw` / `setattrFuel` / `memInitFuel`,
  where a `none` result means the evaluation exceeds every bounded call
  depth (Python raises `RecursionError`).
-/

namespace Mem

/-- JSON-representable session values, the value type of the `jobject`
store handled by `jsonb.encode` / `jsonb.decode`. -/
inductive JVal where
  | jnull : JVal
  | jbool : Bool → JVal
  | jnum : Int → JVal
  | jstr : String → JVal
  | jarr : List JVal → JVal
  | jobj : List (String × JVal) → JVal


/-- The ordered string-keyed mapping backing a session (`jobject`),
as an insertion-ordered association list. -/
abbrev Store := List (String × JVal)

/-- Mapping lookup: `store[k]` returning `none` where Python raises
`KeyError`. -/
def Store.get? : Store → String → Option JVal
  | [], _ => none
  | (k, v) :: rest, a => if k = a then some v else Store.get? rest a

/-- Mapping update `store[k] = v`: replace in place, else append. -/
def Store.set : Store → String → JVal → Store
  | [], a, v => [(a, v)]
  | (k, w) :: rest, a, v =>
      if k = a then (k, v) :: rest else (k, w) :: Store.set rest a v

/-- Mapping deletion `del store[k]`: `none` where Python raises
`KeyError`. -/
def Store.del : Store → String → Option Store
  | [], _ => none
  | (k, w) :: rest, a =>
      if k = a then some rest else (Store.del rest a).map ((k, w) :: ·)

/-- Python exceptions that the modelled code can raise. -/
inductive PyErr where
  | keyError : String → PyErr
  | attrError : String → PyErr
  | decodeError : PyErr
  | typeError : PyErr


/-- Redis commands issued by the module (`_moRedis.get/set/setex/expire/delete`).
The expiry argument is carried as the Python value the code passed. -/
inductive RCmd where
  | rget : String → RCmd
  | rset : String → String → RCmd
  | rsetex : String → JVal → String → RCmd
  | rexpire : String → JVal → RCmd
  | rdel : String → RCmd


/-- Python `value == 0` on a stored JSON value: numbers compare
numerically, `False == 0` holds, everything else is unequal to 0. -/
def pyEqZero : JVal → Bool
  | JVal.jnum n => n == 0
  | JVal.jbool b => b == false
  | _ => false

/-- The `_Memory` handle state: the session key (`__key`) and the
session store (`__store`). -/
structure Memory where
  key : String
  store : Store


/-- Method `__contains__` (lines 99-110): membership in the store. -/
def Memory.contains (m : Memory) (k : String) : Bool :=
  (m.store.get? k).isSome

/-- Method `__delitem__` (lines 112-123): delete the key from the
store, `KeyError` when absent. -/
def Memory.delitem (m : Memory) (k : String) : Except PyErr Memory :=
  match m.store.del k with
  | none => Except.error (PyErr.keyError k)
  | some st => Except.ok ⟨m.key, st⟩

/-- Method `__getattr__` (lines 125-142), over an established store:
look the name up in the store; on `KeyError` raise `AttributeError`;
on success the looked-up value is discarded and the method falls off
the end, returning Python `None` (modelled as `Unit`). -/
def Memory.getattr (m : Memory) (a : String) : Except PyErr Unit :=
  match m.store.get? a with
  | some _ => Except.ok ()
  | none => Except.error (PyErr.attrError a)

/-- Method `__getitem__` (lines 144-155). -/
def Memory.getitem (m : Memory) (k : String) : Except PyErr JVal :=
  match m.store.get? k with
  | some v => Except.ok v
  | none => Except.error (PyErr.keyError k)

/-- Method `__len__` (lines 167-175). -/
def Memory.length (m : Memory) : Nat := m.store.length

/-- Method `__setitem__` (lines 188-200): update the store, key
untouched. -/
def Memory.setitem (m : Memory) (k : String) (v : JVal) : Memory :=
  ⟨m.key, m.store.set k v⟩

/-- Method `__setattr__` (lines 177-186), over an established store:
it forwards every attribute assignment to `__setitem__`. -/
def Memory.setattrF (m : Memory) (a : String) (v : JVal) : Memory :=
  m.setitem a v

/-- Method `close` (lines 212-220): one `DEL` on the session key. -/
def Memory.close (m : Memory) : List RCmd :=
  [RCmd.rdel m.key]

/-- Method `extend` (lines 222-237): read `__store['__ttl']`
(`KeyError` when absent); if it compares equal to 0 return with no
backend call, else issue one `EXPIRE key ttl`.  The store is returned
unchanged, as the body never writes it. -/
def Memory.extend (m : Memory) : Except PyErr (Memory × List RCmd) :=
  match m.store.get? "__ttl" with
  | none => Except.error (PyErr.keyError "__ttl")
  | some v =>
      if pyEqZero v then Except.ok (m, [])
      else Except.ok (m, [RCmd.rexpire m.key v])

/-- Method `key` (lines 239-247): return `__key`. -/
def Memory.keyAcc (m : Memory) : String := m.key

/-- Method `save` (lines 249-268): read `__store['__ttl']` (`KeyError`
when absent); encode the whole store with the codec `enc`; if the ttl
compares equal to 0 issue `SET key payload`, else `SETEX key ttl
payload`. -/
def Memory.save (enc : Store → String) (m : Memory) : Except PyErr (List RCmd) :=
  match m.store.get? "__ttl" with
  | none => Except.error (PyErr.keyError "__ttl")
  | some v =>
      if pyEqZero v then Except.ok [RCmd.rset m.key (enc m.store)]
      else Except.ok [RCmd.rsetex m.key v (enc m.store)]

/-- Gateway `create`, line 46: `id and id or uuid.uuid4().hex` — a
falsy id (Python `None` or the empty string) is replaced by the
freshly generated hex `fresh`. -/
def createKey (id : Option String) (fresh : String) : String :=
  match id with
  | none => fresh
  | some s => if s = "" then fresh else s

/-- Gateway `create`, line 43: the seeded data is exactly
`\x7b '__ttl': ttl \x7d`. -/
def createData (ttl : Int) : Store := [("__ttl", JVal.jnum ttl)]

/-- Gateway `create` (lines 28-46): build the handle state from the
resolved key and seeded data; the body contains no backend call, so
the issued command list is empty.  (The dispatch divergence inside the
`_Memory` constructor is modelled by `memInitFuel`.) -/
def create (id : Option String) (ttl : Int) (fresh : String) : Memory × List RCmd :=
  (⟨createKey id fresh, createData ttl⟩, [])

/-- Gateway `load` (lines 48-71) over an abstract backend `b`
(`_moRedis.get`) and codec `dec` (`jsonb.decode`; `none` where it
raises).  Absent entry: return Python `None`.  Present entry: the
bytes-to-text step (lines 66-68) swallows its own exceptions and is
the identity on our string-modelled wire values; a codec failure
propagates; on success the handle state `⟨id, fields⟩` results (the
constructor is modelled by its documented effect here, its actual
dispatch is `memInitFuel`). -/
def load (b : String → Option String) (dec : String → Option Store)
    (i : String) : Except PyErr (Option Memory) :=
  match b i with
  | none => Except.ok none
  | some s =>
      match dec s with
      | none => Except.error PyErr.decodeError
      | some st => Except.ok (some ⟨i, st⟩)

/-- Values held in a `_Memory` instance `__dict__`: a JSON value or
the `jobject` store. -/
inductive PyVal where
  | vjson : JVal → PyVal
  | vstore : Store → PyVal


/-- An instance `__dict__`, as an association list. -/
abbrev IDict := List (String × PyVal)

/-- Instance dictionary lookup. -/
def idGet : IDict → String → Option PyVal
  | [], _ => none
  | (k, v) :: rest, a => if k = a then some v else idGet rest a

/-- Instance dictionary update. -/
def idSet : IDict → String → PyVal → IDict
  | [], a, v => [(a, v)]
  | (k, w) :: rest, a, v =>
      if k = a then (k, v) :: rest else (k, w) :: idSet rest a v

/-- Fuelled attribute read `getattr(self, a)` on a `_Memory` instance
with instance dictionary `d`.  Normal lookup checks the instance
dictionary (the executions modelled never fetch a name defined on the
class by this route); on failure Python invokes `__getattr__(a)`,
whose body evaluates `self.__store` — the name-mangled attribute
`_Memory__store` — re-entering this very lookup, then subscripts it
with `a`: success discards the value and returns `None`, a `KeyError`
becomes `AttributeError`.  `fuel` bounds the call depth; `none` means
the evaluation exceeds every bound (Python `RecursionError`). -/
def getattrRaw : Nat → IDict → String → Option (Except PyErr PyVal)
  | 0, _, _ => none
  | fuel + 1, d, a =>
      match idGet d a with
      | some v => some (Except.ok v)
      | none =>
          match getattrRaw fuel d "_Memory__store" with
          | none => none
          | some (Except.error e) => some (Except.error e)
          | some (Except.ok (PyVal.vstore st)) =>
              match Store.get? st a with
              | some _ => some (Except.ok (PyVal.vjson JVal.jnull))
              | none => some (Except.error (PyErr.attrError a))
          | some (Except.ok (PyVal.vjson _)) =>
              some (Except.error PyErr.typeError)

/-- Fuelled attribute assignment `setattr(self, a, v)`: the class's
unconditional `__setattr__` forwards to `__setitem__`, whose body
first evaluates `self.__store` (via `getattrRaw`) and then mutates
that store — the value lands in the store, never in the instance
dictionary. -/
def setattrFuel (fuel : Nat) (d : IDict) (a : String) (v : JVal) :
    Option (Except PyErr IDict) :=
  match getattrRaw fuel d "_Memory__store" with
  | none => none
  | some (Except.error e) => some (Except.error e)
  | some (Except.ok (PyVal.vstore st)) =>
      some (Except.ok (idSet d "_Memory__store" (PyVal.vstore (Store.set st a v))))
  | some (Except.ok (PyVal.vjson _)) =>
      some (Except.error PyErr.typeError)

/-- The `_Memory` constructor (lines 82-97): starting from an empty
instance dictionary, execute `self.__key = key` then
`self.__store = jobject(data)`, both routed through `setattrFuel`. -/
def memInitFuel (fuel : Nat) (k : String) (data : Store) :
    Option (Except PyErr IDict) :=
  match setattrFuel fuel [] "_Memory__key" (JVal.jstr k) with
  | none => none
  | some (Except.error e) => some (Except.error e)
  | some (Except.ok d1) => setattrFuel fuel d1 "_Memory__store" (JVal.jobj data)

/-- The constructor call performed by `create id ttl` (line 46). -/
def createInitFuel (fuel : Nat) (id : Option String) (ttl : Int)
    (fresh : String) : Option (Except PyErr IDict) :=
  memInitFuel fuel (createKey id fresh) (createData ttl)

/-- On an empty instance dictionary, the mangled-store lookup never
finishes: `__getattr__` re-reads `self.__store` at every depth. -/
theorem getattrRaw_nil (fuel : Nat) (a : String) :
    getattrRaw fuel [] a = none := by
  induction fuel generalizing a with
  | zero => rfl
  | succ f ih => simp [getattrRaw, idGet, ih]

/-- The constructor exhausts every call-depth bound. -/
theorem memInitFuel_none (fuel : Nat) (k : String) (data : Store) :
    memInitFuel fuel k data = none := by
  simp [memInitFuel, setattrFuel, getattrRaw_nil]

/-- Claim-following definition, after C5's words: the seeded data of
`create` holds the reserved expiry entry only when the ttl override is
non-zero. -/
def createDataClaim (ttl : Int) : Store :=
  if ttl = 0 then [] else [("__ttl", JVal.jnum ttl)]

/-- Claim-following definition, after C4's words: resolve the
effective expiry as the reserved field if present and nonzero, else a
process-wide default; zero means no backend call, otherwise one
`EXPIRE` with the resolved value. -/
def extendClaim (defaultTtl : Int) (k : String) (st : Store) : List RCmd :=
  let eff : Int :=
    match Store.get? st "__ttl" with
    | some (JVal.jnum n) => if n = 0 then defaultTtl else n
    | _ => defaultTtl
  if eff = 0 then [] else [RCmd.rexpire k (JVal.jnum eff)]

/-- Claim-following definition, after C3's words: serialize the entire
store and resolve the effective expiry exactly as in C4's rule
(reserved field if present and nonzero, else a process-wide default);
a resolved zero gives a plain `SET`, otherwise a `SETEX` with the
resolved value. -/
def saveClaim (defaultTtl : Int) (enc : Store → String) (k : String)
    (st : Store) : List RCmd :=
  let eff : Int :=
    match Store.get? st "__ttl" with
    | some (JVal.jnum n) => if n = 0 then defaultTtl else n
    | _ => defaultTtl
  if eff = 0 then [RCmd.rset k (enc st)]
  else [RCmd.rsetex k (JVal.jnum eff) (enc st)]

/-- A backend whose only entry sits under the empty key. -/
def cexBackend : String → Option String :=
  fun k => if k = "" then some "raw" else none

/-- A codec accepting every wire value as the empty field set. -/
def cexDecode : String → Option Store :=
  fun _ => some []

/-- Claim C2: the `_Memory` constructor is meant to store the key and
the data and return the handle, but its own attribute assignments are
intercepted by the unconditional `__setattr__`, which forwards them to
the not-yet-initialised store, whose lookup re-enters `__getattr__`
without bound: for every call-depth bound the constructor fails to
finish (Python raises `RecursionError`), for every key and seed data. -/
theorem memInit_never_returns (fuel : Nat) (k : String) (data : Store) :
    memInitFuel fuel k data = none :=
  memInitFuel_none fuel k data

/-- Claim C1: the round trip `create` / populate / `save` / `load`
cannot even begin — the constructor call made by `create "sess-1"`
(with any generated hex) exceeds every call-depth bound, so no handle
exists to populate, save, or reload. -/
theorem create_roundtrip_unreachable (fuel : Nat) :
    createInitFuel fuel (some "sess-1") 0 "0123456789abcdef0123456789abcdef" = none :=
  memInitFuel_none fuel _ _

/-- Counterexample to C3 as stated: on a handle whose store lacks the
reserved `__ttl` entry (reachable via `__delitem__` or `load` of
externally written data) the code raises `KeyError` at line 259 before
serialising anything, while the claimed resolution rule — exactly
C4's — prescribes one `SET` (default 0) or one `SETEX` with the
process default (here 30), never an error. -/
theorem save_claim_cex :
    Memory.save (fun _ => "payload") ⟨"sess-1", []⟩
      = Except.error (PyErr.keyError "__ttl")
    ∧ saveClaim 0 (fun _ => "payload") "sess-1" []
      = [RCmd.rset "sess-1" "payload"]
    ∧ saveClaim 30 (fun _ => "payload") "sess-1" []
      = [RCmd.rsetex "sess-1" (JVal.jnum 30) "payload"] :=
  ⟨rfl, rfl, rfl⟩

/-- Claim C3 as amended: `save` reads the reserved `__ttl` entry and
raises `KeyError`, writing nothing, when it is absent (there is no
process-wide default in this module); when the entry is present `save`
serialises the entire store (reserved entry included) with the codec
and issues exactly one write — a plain `SET` when the ttl compares
equal to zero, a `SETEX` with that ttl otherwise. -/
theorem save_writes_whole_store (enc : Store → String) (m : Memory) :
    (Store.get? m.store "__ttl" = none →
      Memory.save enc m = Except.error (PyErr.keyError "__ttl"))
    ∧ (∀ v : JVal, Store.get? m.store "__ttl" = some v →
        Memory.save enc m =
          Except.ok [if pyEqZero v then RCmd.rset m.key (enc m.store)
                     else RCmd.rsetex m.key v (enc m.store)]) := by
  constructor
  · intro h
    unfold Memory.save
    rw [h]
  · intro v h
    unfold Memory.save
    rw [h]
    by_cases hz : pyEqZero v = true <;> simp [hz]

/-- Witness for C3's amended claim on the absent, zero and nonzero
cases. -/
theorem save_writes_whole_store_witness :
    Memory.save (fun _ => "payload") ⟨"s", ([] : Store)⟩
      = Except.error (PyErr.keyError "__ttl")
    ∧ Memory.save (fun _ => "payload")
        ⟨"sess-1", [("__ttl", JVal.jnum 0), ("user", JVal.jstr "alice")]⟩
      = Except.ok [RCmd.rset "sess-1" "payload"]
    ∧ Memory.save (fun _ => "payload")
        ⟨"sess-1", [("__ttl", JVal.jnum 9), ("user", JVal.jstr "alice")]⟩
      = Except.ok [RCmd.rsetex "sess-1" (JVal.jnum 9) "payload"] := by
  refine ⟨(save_writes_whole_store (fun _ => "payload") ⟨"s", []⟩).1 rfl, ?_, ?_⟩
  · have h := (save_writes_whole_store (fun _ => "payload")
      ⟨"sess-1", [("__ttl", JVal.jnum 0), ("user", JVal.jstr "alice")]⟩).2
      (JVal.jnum 0) rfl
    simpa using h
  · have h := (save_writes_whole_store (fun _ => "payload")
      ⟨"sess-1", [("__ttl", JVal.jnum 9), ("user", JVal.jstr "alice")]⟩).2
      (JVal.jnum 9) rfl
    simpa using h

/-- Counterexample to C4 as stated: on a store lacking the reserved
`__ttl` entry the code raises `KeyError`, while the claimed resolution
rule prescribes a successful no-op (default 0) or a single `EXPIRE`
with the process default (here 30) — never an error.  The module has
no process-wide default expiry at all. -/
theorem extend_claim_cex :
    Memory.extend ⟨"sess-1", []⟩ = Except.error (PyErr.keyError "__ttl")
    ∧ extendClaim 0 "sess-1" [] = []
    ∧ extendClaim 30 "sess-1" [] = [RCmd.rexpire "sess-1" (JVal.jnum 30)] :=
  ⟨rfl, rfl, rfl⟩

/-- Claim C4 as amended: `extend` reads the reserved `__ttl` field and
raises `KeyError` when it is absent (there is no process-wide default
in this module); when the field compares equal to zero it succeeds
with zero backend calls, otherwise it issues exactly one `EXPIRE` with
that value against the identifier; the handle state is unchanged
either way. -/
theorem extend_resolves_own_ttl (m : Memory) :
    (Store.get? m.store "__ttl" = none →
      Memory.extend m = Except.error (PyErr.keyError "__ttl"))
    ∧ (∀ v : JVal, Store.get? m.store "__ttl" = some v →
        Memory.extend m =
          Except.ok (m, if pyEqZero v then [] else [RCmd.rexpire m.key v])) := by
  constructor
  · intro h
    unfold Memory.extend
    rw [h]
  · intro v h
    unfold Memory.extend
    rw [h]
    by_cases hz : pyEqZero v = true <;> simp [hz]

/-- Witness for C4's amended claim on the absent, zero and nonzero
cases. -/
theorem extend_resolves_own_ttl_witness :
    Memory.extend ⟨"s", ([] : Store)⟩ = Except.error (PyErr.keyError "__ttl")
    ∧ Memory.extend ⟨"s", [("__ttl", JVal.jnum 0)]⟩
        = Except.ok (⟨"s", [("__ttl", JVal.jnum 0)]⟩, [])
    ∧ Memory.extend ⟨"s", [("__ttl", JVal.jnum 45)]⟩
        = Except.ok (⟨"s", [("__ttl", JVal.jnum 45)]⟩,
            [RCmd.rexpire "s" (JVal.jnum 45)]) := by
  refine ⟨(extend_resolves_own_ttl ⟨"s", []⟩).1 rfl, ?_, ?_⟩
  · have h := (extend_resolves_own_ttl ⟨"s", [("__ttl", JVal.jnum 0)]⟩).2
      (JVal.jnum 0) rfl
    simpa using h
  · have h := (extend_resolves_own_ttl ⟨"s", [("__ttl", JVal.jnum 45)]⟩).2
      (JVal.jnum 45) rfl
    simpa using h

/-- Counterexample to C5 as stated: with the default ttl override 0,
the seeded data of `create` still carries the reserved `__ttl` entry
(line 43 seeds it unconditionally), while the claim prescribes an
entirely empty field set in that case. -/
theorem create_claim_cex :
    Store.get? (createData 0) "__ttl" = some (JVal.jnum 0)
    ∧ createDataClaim 0 = [] :=
  ⟨rfl, rfl⟩

/-- Claim C5 as amended: `create` performs no backend call, the
resulting fields are empty except the reserved `__ttl` entry, which is
always present and holds the ttl override (0 by default), and an
omitted identifier is replaced by the freshly generated hex. -/
theorem create_seeds_ttl_only (id : Option String) (ttl : Int) (fresh : String) :
    (create id ttl fresh).2 = []
    ∧ Store.get? (create id ttl fresh).1.store "__ttl" = some (JVal.jnum ttl)
    ∧ (∀ k : String, k ≠ "__ttl" →
        Store.get? (create id ttl fresh).1.store k = none)
    ∧ (id = none → (create id ttl fresh).1.key = fresh) := by
  refine ⟨rfl, by simp [create, createData, Store.get?], ?_, ?_⟩
  · intro k hk
    simp only [create, createData, Store.get?]
    rw [if_neg (fun h => hk h.symm)]
  · intro h
    simp [create, createKey, h]

/-- Witness for C5's amended claim at ttl 7 with an omitted
identifier. -/
theorem create_seeds_ttl_only_witness :
    (create none 7 "feed").2 = []
    ∧ Store.get? (create none 7 "feed").1.store "__ttl" = some (JVal.jnum 7)
    ∧ Store.get? (create none 7 "feed").1.store "user" = none
    ∧ (create none 7 "feed").1.key = "feed" := by
  have h := create_seeds_ttl_only none 7 "feed"
  exact ⟨h.1, h.2.1, h.2.2.1 "user" (by decide), h.2.2.2 rfl⟩

/-- Claim C6: when the backend holds an entry but the codec rejects
the stored wire value, `load` propagates the fatal decode error; it
does not return a handle (empty or otherwise). -/
theorem load_corrupt_propagates (b : String → Option String)
    (dec : String → Option Store) (i s : String)
    (hb : b i = some s) (hd : dec s = none) :
    load b dec i = Except.error PyErr.decodeError := by
  unfold load
  rw [hb]
  simp [hd]

/-- Witness for C6: one backend entry of undecodable bytes. -/
theorem load_corrupt_propagates_witness :
    load (fun _ => some "not-json") (fun _ => none) "sess-1"
      = Except.error PyErr.decodeError :=
  load_corrupt_propagates (fun _ => some "not-json") (fun _ => none)
    "sess-1" "not-json" rfl rfl

/-- Claim C7: when the backend holds no entry for the identifier,
`load` returns the explicit absent result (Python `None`), not an
error. -/
theorem load_absent_returns_none (b : String → Option String)
    (dec : String → Option Store) (i : String) (hb : b i = none) :
    load b dec i = Except.ok none := by
  unfold load
  rw [hb]

/-- Witness for C7 on an empty backend. -/
theorem load_absent_returns_none_witness :
    load (fun _ => none) (fun _ => some []) "ghost" = Except.ok none :=
  load_absent_returns_none (fun _ => none) (fun _ => some []) "ghost" rfl

/-- Claim C8: the attribute accessor raises `AttributeError` — a
signal distinct from `KeyError` — for every absent field, and for
every present field it discards the looked-up value and returns
Python `None` to the caller. -/
theorem getattr_swallows_success (m : Memory) (a : String) :
    (Store.get? m.store a = none →
      Memory.getattr m a = Except.error (PyErr.attrError a)
      ∧ PyErr.attrError a ≠ PyErr.keyError a)
    ∧ (∀ v : JVal, Store.get? m.store a = some v →
        Memory.getattr m a = Except.ok ()) := by
  constructor
  · intro h
    refine ⟨?_, fun hc => PyErr.noConfusion hc⟩
    unfold Memory.getattr
    rw [h]
  · intro v h
    unfold Memory.getattr
    rw [h]

/-- Witness for C8 on a concrete store: missing field and present
field. -/
theorem getattr_swallows_success_witness :
    Memory.getattr ⟨"s", [("user", JVal.jstr "alice")]⟩ "missing"
      = Except.error (PyErr.attrError "missing")
    ∧ Memory.getattr ⟨"s", [("user", JVal.jstr "alice")]⟩ "user"
      = Except.ok () := by
  refine ⟨?_, ?_⟩
  · exact ((getattr_swallows_success ⟨"s", [("user", JVal.jstr "alice")]⟩
      "missing").1 (by rfl)).1
  · exact (getattr_swallows_success ⟨"s", [("user", JVal.jstr "alice")]⟩
      "user").2 (JVal.jstr "alice") (by rfl)

/-- Counterexample to C9 as stated: `load` performs no check on its
identifier — against a backend holding an entry under the empty key,
`load` of the empty string returns a handle whose identifier is the
empty string. -/
theorem load_empty_identifier_cex :
    load cexBackend cexDecode "" = Except.ok (some ⟨"", []⟩)
    ∧ Memory.keyAcc ⟨"", []⟩ = "" :=
  ⟨rfl, rfl⟩

/-- Claim C9 as amended: a handle built by `create` has a non-empty
identifier whenever the generated hex is non-empty (the passed
identifier is used only when itself non-empty); `load` returns a
handle carrying exactly the requested identifier, so its identifier is
non-empty exactly when the argument is; no handle operation changes
the identifier (`save` and `close` return only backend commands and
cannot touch it); and the `key` accessor returns it. -/
theorem identifier_fixed_at_construction (fresh : String) (id : Option String)
    (hf : fresh ≠ "") :
    (∀ ttl : Int, (create id ttl fresh).1.key ≠ "")
    ∧ (∀ (b : String → Option String) (dec : String → Option Store)
        (i : String) (m : Memory),
        load b dec i = Except.ok (some m) → m.key = i)
    ∧ (∀ (m : Memory) (k : String) (v : JVal),
        (m.setitem k v).key = m.key ∧ (m.setattrF k v).key = m.key)
    ∧ (∀ (m m2 : Memory) (k : String),
        m.delitem k = Except.ok m2 → m2.key = m.key)
    ∧ (∀ (m m2 : Memory) (cs : List RCmd),
        Memory.extend m = Except.ok (m2, cs) → m2.key = m.key)
    ∧ (∀ m : Memory, m.keyAcc = m.key) := by
  refine ⟨?_, ?_, ?_, ?_, ?_, fun _ => rfl⟩
  · intro ttl
    cases id with
    | none => simpa [create, createKey] using hf
    | some s =>
        simp only [create, createKey]
        by_cases hs : s = "" <;> simp [hs, hf]
  · intro b dec i m h
    unfold load at h
    split at h
    next => simp at h
    next s hs =>
      split at h
      next => simp at h
      next st hst =>
        simp only [Except.ok.injEq, Option.some.injEq] at h
        rw [← h]
  · intro m k v
    exact ⟨rfl, rfl⟩
  · intro m m2 k h
    unfold Memory.delitem at h
    cases hd : Store.del m.store k with
    | none => rw [hd] at h; simp at h
    | some st =>
        rw [hd] at h
        simp only [Except.ok.injEq] at h
        rw [← h]
  · intro m m2 cs h
    unfold Memory.extend at h
    cases hg : Store.get? m.store "__ttl" with
    | none => rw [hg] at h; simp at h
    | some v =>
        rw [hg] at h
        by_cases hz : pyEqZero v = true <;>
          simp only [hz, if_true, if_false, Bool.false_eq_true,
            Except.ok.injEq, Prod.mk.injEq] at h <;>
          rw [← h.1]

/-- Witness for C9's amended claim at concrete handles. -/
theorem identifier_fixed_at_construction_witness :
    (create none 0 "ab").1.key ≠ ""
    ∧ Memory.keyAcc ⟨"s", []⟩ = "s"
    ∧ (Memory.setitem ⟨"s", []⟩ "user" (JVal.jstr "x")).key = "s" := by
  have h := identifier_fixed_at_construction "ab" none (by decide)
  exact ⟨h.1 0, (h.2.2.2.2.2 ⟨"s", []⟩).trans rfl,
    ((h.2.2.1 ⟨"s", []⟩ "user" (JVal.jstr "x")).1).trans rfl⟩

/-- Claim C10: `create` with the empty-string identifier behaves
exactly like `create` with the identifier omitted — the falsy argument
is replaced by the freshly generated hex, which becomes the session
identifier. -/
theorem create_empty_id_falls_back (ttl : Int) (fresh : String) :
    create (some "") ttl fresh = create none ttl fresh
    ∧ createKey (some "") fresh = fresh := by
  exact ⟨by simp [create, createKey], by simp [createKey]⟩

end Mem
